import Mathlib

/-!
Verification development for the pick settlement and performance engine of
this repository.  The definitions below are a shallow embedding of the two
Python modules that implement the engine:

* `results_updater.py` — loading picks, resolving game results, grading
  pending picks (`did_pick_win`) and writing the collection back
  (`update_results`);
* `performance_reporter.py` — windowed performance aggregation
  (`generate_report`).

Python numbers (scores, stakes, odds, spreads, profit and loss, time of
day) are modelled as exact rationals (`PyNum`); Python strings as `String`;
JSON nullable fields as `Option`; exceptions as `Except`.  The external
sports API (`get_game_id` / `get_game_results`) is a collaborator outside
this repository and is modelled as a pair of function parameters.
-/

/-!
## Exact rational numbers

Values are kept in lowest terms with positive denominator by the smart
constructor `PyNum.norm`, so structural equality coincides with numeric
equality on every value these operations build.  Division by zero is never
exercised by the embedded code paths (the Python code guards the only
division) and returns a junk value.
-/

structure PyNum where
  num : ℤ
  den : ℕ
deriving DecidableEq, Repr

namespace PyNum

def norm (n : ℤ) (d : ℕ) : PyNum :=
  let g := Nat.gcd n.natAbs d
  ⟨n / (g : ℤ), d / g⟩

instance (n : ℕ) : OfNat PyNum n := ⟨⟨(n : ℤ), 1⟩⟩

def add (a b : PyNum) : PyNum :=
  norm (a.num * (b.den : ℤ) + b.num * (a.den : ℤ)) (a.den * b.den)

def neg (a : PyNum) : PyNum := ⟨-a.num, a.den⟩

def sub (a b : PyNum) : PyNum := add a (neg b)

def mul (a b : PyNum) : PyNum := norm (a.num * b.num) (a.den * b.den)

def div (a b : PyNum) : PyNum :=
  norm (a.num * (b.den : ℤ) * b.num.sign) (a.den * b.num.natAbs)

instance : Add PyNum := ⟨add⟩
instance : Sub PyNum := ⟨sub⟩
instance : Mul PyNum := ⟨mul⟩
instance : Div PyNum := ⟨div⟩
instance : Neg PyNum := ⟨neg⟩
instance : LT PyNum := ⟨fun a b => a.num * (b.den : ℤ) < b.num * (a.den : ℤ)⟩
instance : LE PyNum := ⟨fun a b => a.num * (b.den : ℤ) ≤ b.num * (a.den : ℤ)⟩

instance (a b : PyNum) : Decidable (a < b) :=
  inferInstanceAs (Decidable (a.num * (b.den : ℤ) < b.num * (a.den : ℤ)))

instance (a b : PyNum) : Decidable (a ≤ b) :=
  inferInstanceAs (Decidable (a.num * (b.den : ℤ) ≤ b.num * (a.den : ℤ)))

end PyNum

/-!
## String helpers

Structural-recursion counterparts of the Python string operations the two
modules use, working on `List Char` so that every concrete instance reduces
inside the kernel.
-/

/-- Does `cs` start with `needle`? -/
def headMatches : List Char → List Char → Bool
  | [], _ => true
  | _ :: _, [] => false
  | a :: as, b :: bs => a == b && headMatches as bs

/-- Substring containment: does `needle` occur anywhere in `cs`? -/
def occursIn : List Char → List Char → Bool
  | needle, [] => headMatches needle []
  | needle, c :: rest => headMatches needle (c :: rest) || occursIn needle rest

/-- Python `needle in haystack` on strings (case-sensitive substring). -/
def strIn (needle haystack : String) : Bool :=
  occursIn needle.data haystack.data

/-- Split a character list on a single separator character; mirrors Python
`str.split(sep)` for a one-character separator (empty parts preserved). -/
def splitOnCharL (sep : Char) (cs : List Char) : List (List Char) :=
  cs.foldr
    (fun c acc =>
      match acc with
      | [] => [[c]]
      | a :: as => if c = sep then [] :: a :: as else (c :: a) :: as)
    [[]]

/-- Python `s.rsplit(' ', 1)` followed by unpacking into exactly two names:
`some (before, last)` when `s` contains at least one space, `none` when the
unpacking would raise `ValueError`. -/
def rsplitOnce (s : String) : Option (String × String) :=
  match (splitOnCharL ' ' s.data).reverse with
  | last :: second :: rest =>
      some (⟨List.intercalate [' '] (second :: rest).reverse⟩, ⟨last⟩)
  | _ => none

/-- Python `s.split(' ')[0]`. -/
def firstTok (s : String) : String :=
  ⟨((splitOnCharL ' ' s.data).headD []).map id⟩

/-- Longest head of `cs` before the first occurrence of `sep`; the whole
list when `sep` does not occur.  The numeric argument is recursion fuel,
always called with the length of `cs`. -/
def headBefore (sep : List Char) : List Char → ℕ → List Char
  | _, 0 => []
  | [], _ + 1 => []
  | c :: cs, fuel + 1 =>
      if headMatches sep (c :: cs) then []
      else c :: headBefore sep cs fuel

/-- Python `game_name.split(' vs ')[0]`. -/
def splitVsHead (s : String) : String :=
  ⟨headBefore " vs ".data s.data s.data.length⟩

/-- Numeric value of a digit list (most significant first). -/
def digitsToNat (cs : List Char) : ℕ :=
  cs.foldl (fun a c => a * 10 + (c.toNat - 48)) 0

/-- Python `float(s)` restricted to the plain decimal literals that occur
as spreads in predictions: an optional sign followed by digits with an
optional fractional part (no exponent, infinity or nan forms, which never
occur in this data).  `none` models the `ValueError` raise. -/
def pyFloat (s : String) : Option PyNum :=
  let core : List Char → Option PyNum := fun body =>
    match splitOnCharL '.' body with
    | [intPart] =>
        if intPart ≠ [] ∧ intPart.all Char.isDigit then
          some ⟨(digitsToNat intPart : ℤ), 1⟩
        else none
    | [intPart, fracPart] =>
        if (intPart ≠ [] ∨ fracPart ≠ []) ∧ intPart.all Char.isDigit ∧
            fracPart.all Char.isDigit then
          some (PyNum.norm
            ((digitsToNat intPart * 10 ^ fracPart.length + digitsToNat fracPart : ℕ) : ℤ)
            (10 ^ fracPart.length))
        else none
    | _ => none
  match s.data with
  | '-' :: body => (core body).map PyNum.neg
  | '+' :: body => core body
  | body => core body

/-!
## Calendar dates and times

`PyDateTime` models a Python `datetime`: a proleptic-Gregorian calendar
date plus a time of day (seconds, exact).  `datetime.strptime(s, "%Y-%m-%d")`
produces midnight of the parsed date.  Comparison is lexicographic on
(year, month, day, time), which agrees with Python on valid dates.
-/

structure PyDateTime where
  year : ℕ
  month : ℕ
  day : ℕ
  tod : PyNum
deriving DecidableEq, Repr

def isLeap (y : ℕ) : Bool :=
  (y % 4 == 0 && y % 100 != 0) || y % 400 == 0

def daysInMonth (y m : ℕ) : ℕ :=
  if m = 2 then (if isLeap y then 29 else 28)
  else if m = 4 ∨ m = 6 ∨ m = 9 ∨ m = 11 then 30
  else 31

/-- Days in the months of year `y` strictly before month `m`. -/
def daysBeforeMonth (y m : ℕ) : ℕ :=
  let base : ℕ :=
    match m with
    | 1 => 0 | 2 => 31 | 3 => 59 | 4 => 90 | 5 => 120 | 6 => 151
    | 7 => 181 | 8 => 212 | 9 => 243 | 10 => 273 | 11 => 304 | _ => 334
  if decide (3 ≤ m) && isLeap y then base + 1 else base

/-- Zero-based day ordinal in the proleptic Gregorian calendar:
`toOrdinal ⟨1,1,1,_⟩ = 0`, which is a Monday. -/
def toOrdinal (t : PyDateTime) : ℕ :=
  let py := t.year - 1
  py * 365 + py / 4 - py / 100 + py / 400 + daysBeforeMonth t.year t.month + (t.day - 1)

/-- Python `datetime.weekday()`: Monday is 0. -/
def weekday (t : PyDateTime) : ℕ := toOrdinal t % 7

/-- The next calendar day (time of day preserved). -/
def succDay (t : PyDateTime) : PyDateTime :=
  if t.day < daysInMonth t.year t.month then { t with day := t.day + 1 }
  else if t.month < 12 then { t with month := t.month + 1, day := 1 }
  else { t with year := t.year + 1, month := 1, day := 1 }

/-- The previous calendar day (time of day preserved). -/
def predDay (t : PyDateTime) : PyDateTime :=
  if 1 < t.day then { t with day := t.day - 1 }
  else if 1 < t.month then { t with month := t.month - 1, day := daysInMonth t.year (t.month - 1) }
  else { t with year := t.year - 1, month := 12, day := 31 }

/-- Python `t - timedelta(days = n)`. -/
def subDays (t : PyDateTime) (n : ℕ) : PyDateTime := predDay^[n] t

/-- Python `t + timedelta(days = n)`. -/
def addDays (t : PyDateTime) (n : ℕ) : PyDateTime := succDay^[n] t

/-- Python `a <= b` on datetimes (lexicographic). -/
def dtLe (a b : PyDateTime) : Bool :=
  if a.year ≠ b.year then decide (a.year < b.year)
  else if a.month ≠ b.month then decide (a.month < b.month)
  else if a.day ≠ b.day then decide (a.day < b.day)
  else decide (a.tod ≤ b.tod)

/-- Python `a.date() > b.date()`: compare calendar dates only. -/
def dateGtB (a b : PyDateTime) : Bool :=
  if a.year ≠ b.year then decide (b.year < a.year)
  else if a.month ≠ b.month then decide (b.month < a.month)
  else decide (b.day < a.day)

/-- Python `datetime.strptime(s, "%Y-%m-%d")`: exactly four year digits, one
or two month and day digits, calendar-validated; `none` models the
`ValueError` raise on any other input. -/
def strptimeYMD (s : String) : Option PyDateTime :=
  match splitOnCharL '-' s.data with
  | [ys, ms, ds] =>
      if ys.length = 4 ∧ ys.all Char.isDigit ∧
          1 ≤ ms.length ∧ ms.length ≤ 2 ∧ ms.all Char.isDigit ∧
          1 ≤ ds.length ∧ ds.length ≤ 2 ∧ ds.all Char.isDigit then
        let y := digitsToNat ys
        let m := digitsToNat ms
        let d := digitsToNat ds
        if 1 ≤ y ∧ 1 ≤ m ∧ m ≤ 12 ∧ 1 ≤ d ∧ d ≤ daysInMonth y m then
          some ⟨y, m, d, 0⟩
        else none
      else none
  | _ => none

/-- Python `datetime.min` (year 1, January 1, midnight). -/
def dtMin : PyDateTime := ⟨1, 1, 1, 0⟩

/-- Python `datetime.max` (year 9999, December 31, 23:59:59.999999). -/
def dtMax : PyDateTime := ⟨9999, 12, 31, ⟨86399999999, 1000000⟩⟩

/-!
## Data model

`Pick` mirrors the JSON pick records of `my_picks.json` with the fields the
two modules access.  `event_details.date` uses `Option String` because the
reporter reads it with `.get` (a missing key yields `None`); `odds` uses
`Option PyNum` with `none` for JSON `null`.  `GameResult` flattens the
nested API payload (`teams.home.name` becomes `homeName`, and so on);
`winner` holds the winner name (`winner.get("name", "")`), `none` for a
missing winner object.
-/

structure EventDetails where
  game : String
  date : Option String
deriving DecidableEq, Repr

structure Pick where
  sport : String
  bet_type : String
  prediction : String
  event_details : EventDetails
  stake : PyNum
  odds : Option PyNum
  status : String
  profit_loss : Option PyNum
deriving DecidableEq, Repr

structure GameResult where
  homeName : String
  awayName : String
  homeTotal : PyNum
  awayTotal : PyNum
  homeSets : Option ℕ
  awaySets : Option ℕ
  winner : Option String
  statusLong : Option String
deriving DecidableEq, Repr

instance {ε α : Type} [DecidableEq ε] [DecidableEq α] : DecidableEq (Except ε α) := fun a b =>
  match a, b with
  | .error e, .error f =>
      if h : e = f then .isTrue (congrArg Except.error h)
      else .isFalse fun hh => h (Except.error.inj hh)
  | .ok x, .ok y =>
      if h : x = y then .isTrue (congrArg Except.ok h)
      else .isFalse fun hh => h (Except.ok.inj hh)
  | .error _, .ok _ => .isFalse fun hh => Except.noConfusion hh
  | .ok _, .error _ => .isFalse fun hh => Except.noConfusion hh

/-- The Python exceptions that the embedded code can raise. -/
inductive PyError where
  | valueError
  | keyError
deriving DecidableEq, Repr

/-- The state of the pick store as seen by `open` + `json.load`:
the file is absent (`FileNotFoundError`), present but not valid JSON
(`JSONDecodeError`), or parses to a pick collection. -/
inductive LoadOutcome where
  | fileNotFound
  | decodeError
  | parsed (picks : List Pick)
deriving DecidableEq, Repr

/-- The exceptions `get_picks` guards against. -/
inductive LoadExc where
  | fileNotFoundError
  | jsonDecodeError
deriving DecidableEq, Repr

/-- Models `open(PICKS_FILE)` followed by `json.load(f)`: raises on an absent or corrupt store. -/
def openAndLoad : LoadOutcome → Except LoadExc (List Pick)
  | .fileNotFound => .error .fileNotFoundError
  | .decodeError => .error .jsonDecodeError
  | .parsed ps => .ok ps

/-- Function `get_picks` of `results_updater.py` and `performance_reporter.py`
(the two definitions are textually identical): the `try`/`except` wrapper
that turns both handled exceptions into the empty collection. -/
def get_picks (st : LoadOutcome) : List Pick :=
  match openAndLoad st with
  | .ok ps => ps
  | .error .fileNotFoundError => []
  | .error .jsonDecodeError => []

/-!
## Grading engine (`results_updater.py`)
-/

/-- Python f-string `f"{home_sets}-{away_sets}"`. -/
def fmtSets (a b : ℕ) : String :=
  toString a ++ "-" ++ toString b

/-- Function `did_pick_win(pick, game_result)` of `results_updater.py`.  The Python
function returns a truthy or falsy value; unhandled exceptions
(`ValueError` from tuple unpacking of `rsplit` or from `float`) are
modelled by `Except.error`.  A `None` return (tennis set betting with a
winner matching neither side name never returns explicitly) is falsy and
is modelled as `false`. -/
def did_pick_win (pick : Pick) (game_result : Option GameResult) :
    Except PyError Bool :=
  match game_result with
  | none => .ok false
  | some gr =>
    if pick.sport = "MLB" ∧ pick.bet_type = "Spread" then
      match rsplitOnce pick.prediction with
      | none => .error .valueError
      | some (team_name, spread_str) =>
        match pyFloat spread_str with
        | none => .error .valueError
        | some spread =>
          if strIn team_name gr.homeName then
            .ok (decide (gr.awayTotal < gr.homeTotal + spread))
          else
            .ok (decide (gr.homeTotal < gr.awayTotal + spread))
    else if pick.sport = "Tennis" then
      if pick.bet_type = "Moneyline" then
        match gr.winner with
        | none => .ok false
        | some wname => .ok (strIn (firstTok pick.prediction) wname)
      else if pick.bet_type = "Set Betting" then
        match rsplitOnce pick.prediction with
        | none => .error .valueError
        | some (player_name, set_score_str) =>
          let hs := gr.homeSets.getD 0
          let aw := gr.awaySets.getD 0
          if strIn player_name gr.homeName then
            .ok (fmtSets hs aw == set_score_str)
          else if strIn player_name gr.awayName then
            .ok (fmtSets aw hs == set_score_str)
          else .ok false
      else .ok false
    else .ok false

/-- The profit set on a winning pick by `update_results`:
`stake * (odds - 1)` when `pick["odds"]` is truthy, else `stake`. -/
def winPayout (pick : Pick) : PyNum :=
  match pick.odds with
  | some o => if o ≠ 0 then pick.stake * (o - 1) else pick.stake
  | none => pick.stake

/-- One iteration of the `for pick in picks` loop of `update_results`,
parameterised by the two resolver calls (`get_game_id`, `get_game_results`)
and the current date `now` (`datetime.now()`).  Returns the possibly
mutated pick, or the exception that aborts the whole run. -/
def processPick (findId : String → String → String → Option ℤ)
    (getResult : String → ℤ → Option GameResult)
    (now : PyDateTime) (pick : Pick) : Except PyError Pick :=
  if pick.status = "pending" then
    match pick.event_details.date with
    | none => .error .keyError
    | some game_date =>
      match strptimeYMD game_date with
      | none => .error .valueError
      | some d =>
        if dateGtB d now then .ok pick
        else
          let team_to_search := splitVsHead pick.event_details.game
          match findId pick.sport team_to_search game_date with
          | none => .ok pick
          | some game_id =>
            -- `if game_id:` — a zero id is falsy in Python
            if game_id = 0 then .ok pick
            else
              match getResult pick.sport game_id with
              | some gr =>
                if gr.statusLong = some "Finished" then
                  match did_pick_win pick (some gr) with
                  | .error e => .error e
                  | .ok true =>
                      .ok { pick with status := "win",
                                      profit_loss := some (winPayout pick) }
                  | .ok false =>
                      .ok { pick with status := "loss",
                                      profit_loss := some (-pick.stake) }
                else .ok pick
              | none => .ok pick
  else .ok pick

/-- The full `for` loop of `update_results`: picks are processed in order
and an unhandled exception aborts the remainder of the batch. -/
def runPicks (findId : String → String → String → Option ℤ)
    (getResult : String → ℤ → Option GameResult)
    (now : PyDateTime) : List Pick → Except PyError (List Pick)
  | [] => .ok []
  | p :: ps =>
    match processPick findId getResult now p with
    | .error e => .error e
    | .ok p' =>
      match runPicks findId getResult now ps with
      | .error e => .error e
      | .ok ps' => .ok (p' :: ps')

/-- Function `update_results()` of `results_updater.py`.  The result is what
`save_picks` writes back: `ok none` when the run returns early without
saving (empty collection), `ok (some ps)` when the run completes and saves
`ps`, `error e` when an exception terminates the run before the save. -/
def update_results (findId : String → String → String → Option ℤ)
    (getResult : String → ℤ → Option GameResult)
    (now : PyDateTime) (st : LoadOutcome) : Except PyError (Option (List Pick)) :=
  if (get_picks st).isEmpty then .ok none
  else
    match runPicks findId getResult now (get_picks st) with
    | .error e => .error e
    | .ok ps => .ok (some ps)

/-!
## Performance aggregator (`performance_reporter.py`)
-/

structure Totals where
  total_staked : PyNum
  total_profit_loss : PyNum
  wins : ℕ
  losses : ℕ
  pending : ℕ
deriving DecidableEq, Repr

/-- The tallying statements of the report loop, executed for a pick whose
date passed the window filter. -/
def tally (acc : Totals) (pick : Pick) : Totals :=
  let acc :=
    if pick.status = "win" ∨ pick.status = "loss" then
      { acc with
        total_staked := acc.total_staked + pick.stake,
        total_profit_loss := acc.total_profit_loss + pick.profit_loss.getD 0 }
    else acc
  if pick.status = "win" then { acc with wins := acc.wins + 1 }
  else if pick.status = "loss" then { acc with losses := acc.losses + 1 }
  else if pick.status = "pending" then { acc with pending := acc.pending + 1 }
  else acc

/-- One iteration of the report loop: read the date with `.get` (missing or
empty dates skip the pick), parse it with `strptime` (raising `ValueError`
on any other unparseable date), and tally the pick when its date lies in
the inclusive window. -/
def aggStep (start endp : PyDateTime) (acc : Totals) (pick : Pick) :
    Except PyError Totals :=
  match pick.event_details.date with
  | none => .ok acc
  | some s =>
    if s = "" then .ok acc
    else
      match strptimeYMD s with
      | none => .error .valueError
      | some d =>
        if dtLe start d && dtLe d endp then .ok (tally acc pick)
        else .ok acc

/-- The full report loop over the pick collection. -/
def aggPicks (start endp : PyDateTime) :
    Totals → List Pick → Except PyError Totals
  | acc, [] => .ok acc
  | acc, p :: ps =>
    match aggStep start endp acc p with
    | .error e => .error e
    | .ok acc' => aggPicks start endp acc' ps

/-- The `weekly` window: `today - timedelta(days=today.weekday())` to six
days later.  Note that `today` is `datetime.now()` and keeps its time of
day. -/
def weeklyWindow (now : PyDateTime) : PyDateTime × PyDateTime :=
  let start := subDays now (weekday now)
  (start, addDays start 6)

/-- The `monthly` window: the first of the month to the last calendar day,
computed by the `day=28` plus four days trick of the source. -/
def monthlyWindow (now : PyDateTime) : PyDateTime × PyDateTime :=
  let start := { now with day := 1 }
  let next_month := addDays { start with day := 28 } 4
  (start, subDays next_month next_month.day)

structure Report where
  totals : Totals
  roi : PyNum
deriving DecidableEq, Repr

/-- The final statistics of `generate_report`, including the guarded ROI
computation. -/
def mkReport (t : Totals) : Report :=
  { totals := t,
    roi := if 0 < t.total_staked then t.total_profit_loss / t.total_staked * 100 else 0 }

/-- The `[start_of_period, end_of_period]` window selected by the
`if period == ...` chain; `none` models the invalid-period early return. -/
def reportWindow (period : String) (now : PyDateTime) :
    Option (PyDateTime × PyDateTime) :=
  if period = "weekly" then some (weeklyWindow now)
  else if period = "monthly" then some (monthlyWindow now)
  else if period = "all" then some (dtMin, dtMax)
  else none

/-- Function `generate_report(period)` of `performance_reporter.py`, parameterised
by `datetime.now()` and the store state.  `ok none` models the early
returns that print no report (empty collection, invalid period); `error`
models an unhandled exception in the loop. -/
def generate_report (period : String) (now : PyDateTime) (st : LoadOutcome) :
    Except PyError (Option Report) :=
  if (get_picks st).isEmpty then .ok none
  else
    match reportWindow period now with
    | none => .ok none
    | some (s, e) =>
      match aggPicks s e ⟨0, 0, 0, 0, 0⟩ (get_picks st) with
      | .error er => .error er
      | .ok t => .ok (some (mkReport t))

/-!
## Concrete fixtures

Closed values used by witnesses and counterexamples: a finished MLB game
result, a resolver that always finds it, and a handful of picks drawn from
the scenarios of the specification.
-/

def grYankees : GameResult :=
  ⟨"New York Yankees", "Boston Red Sox", 6, 4, none, none, none, some "Finished"⟩

def cFindId : String → String → String → Option ℤ := fun _ _ _ => some 1

def cGetResult : String → ℤ → Option GameResult := fun _ _ => some grYankees

/-- A Thursday at noon. -/
def now0 : PyDateTime := ⟨2025, 7, 10, ⟨43200, 1⟩⟩

/-- A Tuesday at noon; the Monday of its week is 2025-07-07. -/
def nowTue : PyDateTime := ⟨2025, 7, 8, ⟨43200, 1⟩⟩

def pickYankees : Pick :=
  ⟨"MLB", "Spread", "Yankees -1.5", ⟨"Yankees vs Red Sox", some "2025-07-07"⟩,
   10, some ⟨19, 10⟩, "pending", none⟩

def pickNBA : Pick :=
  ⟨"NBA", "Moneyline", "Lakers -2.5", ⟨"Lakers vs Celtics", some "2025-07-07"⟩,
   10, some 2, "pending", none⟩

def pickMalformed : Pick :=
  ⟨"MLB", "Spread", "Yankees abc", ⟨"Yankees vs Red Sox", some "2025-07-07"⟩,
   10, some 2, "pending", none⟩

def pickDodgers : Pick :=
  ⟨"MLB", "Spread", "Dodgers -1.5", ⟨"Dodgers vs Giants", some "2025-07-07"⟩,
   10, none, "pending", none⟩

/-- An already graded pick dated on a Monday. -/
def pickDone : Pick :=
  ⟨"MLB", "Spread", "Yankees -1.5", ⟨"Yankees vs Red Sox", some "2025-07-07"⟩,
   10, some ⟨19, 10⟩, "win", some 9⟩

/-- A graded pick whose date string is not in `%Y-%m-%d` format. -/
def pickBadDate : Pick :=
  ⟨"MLB", "Spread", "Yankees -1.5", ⟨"Yankees vs Red Sox", some "July 7, 2025"⟩,
   10, none, "win", some 9⟩

/-!
## Helper lemmas
-/

/-- A pick that is already terminal (or has any status other than
`pending`) passes through the settlement loop unchanged. -/
theorem processPick_of_not_pending (f : String → String → String → Option ℤ)
    (g : String → ℤ → Option GameResult) (now : PyDateTime) (p : Pick)
    (h : p.status ≠ "pending") : processPick f g now p = .ok p := by
  unfold processPick
  rw [if_neg h]

/-- A successful settlement step either leaves the pick unchanged or
grades it to a terminal status. -/
theorem processPick_result (f : String → String → String → Option ℤ)
    (g : String → ℤ → Option GameResult) (now : PyDateTime) (p p' : Pick)
    (h : processPick f g now p = .ok p') :
    p' = p ∨ p'.status = "win" ∨ p'.status = "loss" := by
  unfold processPick at h
  by_cases hp : p.status = "pending"
  · rw [if_pos hp] at h
    cases hd : p.event_details.date with
    | none => simp only [hd] at h; cases h
    | some gd =>
      simp only [hd] at h
      cases hs : strptimeYMD gd with
      | none => simp only [hs] at h; cases h
      | some d =>
        simp only [hs] at h
        by_cases hfut : dateGtB d now = true
        · rw [if_pos hfut] at h; cases h; exact Or.inl rfl
        · rw [if_neg hfut] at h
          cases hfid : f p.sport (splitVsHead p.event_details.game) gd with
          | none => simp only [hfid] at h; cases h; exact Or.inl rfl
          | some gid =>
            simp only [hfid] at h
            by_cases hz : gid = 0
            · rw [if_pos hz] at h; cases h; exact Or.inl rfl
            · rw [if_neg hz] at h
              cases hres : g p.sport gid with
              | none => simp only [hres] at h; cases h; exact Or.inl rfl
              | some gr =>
                simp only [hres] at h
                by_cases hfin : gr.statusLong = some "Finished"
                · rw [if_pos hfin] at h
                  cases hw : did_pick_win p (some gr) with
                  | error e => simp only [hw] at h; cases h
                  | ok b =>
                    simp only [hw] at h
                    cases b with
                    | true => cases h; exact Or.inr (Or.inl rfl)
                    | false => cases h; exact Or.inr (Or.inr rfl)
                · rw [if_neg hfin] at h; cases h; exact Or.inl rfl
  · rw [if_neg hp] at h
    simp_all

/-- One settlement step is idempotent. -/
theorem processPick_idem (f : String → String → String → Option ℤ)
    (g : String → ℤ → Option GameResult) (now : PyDateTime) (p p' : Pick)
    (h : processPick f g now p = .ok p') : processPick f g now p' = .ok p' := by
  rcases processPick_result f g now p p' h with rfl | hw | hl
  · exact h
  · exact processPick_of_not_pending f g now p' (by rw [hw]; decide)
  · exact processPick_of_not_pending f g now p' (by rw [hl]; decide)

/-- The settlement loop is idempotent on its own successful output. -/
theorem runPicks_idem (f : String → String → String → Option ℤ)
    (g : String → ℤ → Option GameResult) (now : PyDateTime) :
    ∀ l l', runPicks f g now l = .ok l' → runPicks f g now l' = .ok l'
  | [], l', h => by
      unfold runPicks at h
      cases h
      rfl
  | p :: ps, l', h => by
      unfold runPicks at h
      cases hp : processPick f g now p with
      | error e => rw [hp] at h; cases h
      | ok p₁ =>
        rw [hp] at h
        cases hps : runPicks f g now ps with
        | error e => rw [hps] at h; cases h
        | ok ps₁ =>
          rw [hps] at h
          cases h
          unfold runPicks
          rw [processPick_idem f g now p p₁ hp,
              runPicks_idem f g now ps ps₁ hps]

/-- The settlement loop preserves the length of the collection. -/
theorem runPicks_length (f : String → String → String → Option ℤ)
    (g : String → ℤ → Option GameResult) (now : PyDateTime) :
    ∀ l l', runPicks f g now l = .ok l' → l'.length = l.length
  | [], l', h => by
      unfold runPicks at h
      cases h
      rfl
  | p :: ps, l', h => by
      unfold runPicks at h
      cases hp : processPick f g now p with
      | error e => rw [hp] at h; cases h
      | ok p₁ =>
        rw [hp] at h
        cases hps : runPicks f g now ps with
        | error e => rw [hps] at h; cases h
        | ok ps₁ =>
          rw [hps] at h
          cases h
          simp [runPicks_length f g now ps ps₁ hps]

/-- Evaluating `did_pick_win` on any (sport, bet type) combination other than the
three supported ones falls through every branch and returns `False`. -/
theorem did_pick_win_unsupported (p : Pick) (gr : GameResult)
    (h1 : ¬(p.sport = "MLB" ∧ p.bet_type = "Spread"))
    (h2 : ¬(p.sport = "Tennis" ∧ p.bet_type = "Moneyline"))
    (h3 : ¬(p.sport = "Tennis" ∧ p.bet_type = "Set Betting")) :
    did_pick_win p (some gr) = .ok false := by
  simp only [did_pick_win]
  rw [if_neg h1]
  by_cases hT : p.sport = "Tennis"
  · rw [if_pos hT, if_neg fun hb => h2 ⟨hT, hb⟩, if_neg fun hb => h3 ⟨hT, hb⟩]
  · rw [if_neg hT]

/-- A successful settlement step on a pending pick returns it unchanged or
returns it graded with exactly the payout the source computes. -/
theorem processPick_graded (f : String → String → String → Option ℤ)
    (g : String → ℤ → Option GameResult) (now : PyDateTime) (p p' : Pick)
    (hpend : p.status = "pending")
    (h : processPick f g now p = .ok p') :
    p' = p ∨
    p' = { p with status := "win", profit_loss := some (winPayout p) } ∨
    p' = { p with status := "loss", profit_loss := some (-p.stake) } := by
  unfold processPick at h
  rw [if_pos hpend] at h
  cases hd : p.event_details.date with
  | none => simp only [hd] at h; cases h
  | some gd =>
    simp only [hd] at h
    cases hs : strptimeYMD gd with
    | none => simp only [hs] at h; cases h
    | some d =>
      simp only [hs] at h
      by_cases hfut : dateGtB d now = true
      · rw [if_pos hfut] at h; cases h; exact Or.inl rfl
      · rw [if_neg hfut] at h
        cases hfid : f p.sport (splitVsHead p.event_details.game) gd with
        | none => simp only [hfid] at h; cases h; exact Or.inl rfl
        | some gid =>
          simp only [hfid] at h
          by_cases hz : gid = 0
          · rw [if_pos hz] at h; cases h; exact Or.inl rfl
          · rw [if_neg hz] at h
            cases hres : g p.sport gid with
            | none => simp only [hres] at h; cases h; exact Or.inl rfl
            | some gr =>
              simp only [hres] at h
              by_cases hfin : gr.statusLong = some "Finished"
              · rw [if_pos hfin] at h
                cases hw : did_pick_win p (some gr) with
                | error e => simp only [hw] at h; cases h
                | ok b =>
                  simp only [hw] at h
                  cases b with
                  | true => cases h; exact Or.inr (Or.inl rfl)
                  | false => cases h; exact Or.inr (Or.inr rfl)
              · rw [if_neg hfin] at h; cases h; exact Or.inl rfl

/-!
## Claims
-/

/-- Claim C9: for every storage state, `get_picks` returns a pick sequence
and never raises: an absent store file (`FileNotFoundError`) and a corrupt
one (`JSONDecodeError`) both yield the empty sequence, and a parseable
store yields its picks. -/
theorem c9_load_never_raises :
    get_picks LoadOutcome.fileNotFound = [] ∧
    get_picks LoadOutcome.decodeError = [] ∧
    ∀ ps : List Pick, get_picks (LoadOutcome.parsed ps) = ps :=
  ⟨rfl, rfl, fun _ => rfl⟩

/-- Claim C4: whenever a settlement run grades a pending pick to a terminal
status, a win sets `profit_loss` to `stake * (odds - 1)` when odds are
present and truthy and to `stake` when odds are absent, and a loss sets
`profit_loss` to `-stake`. -/
theorem c4_conservation (f : String → String → String → Option ℤ)
    (g : String → ℤ → Option GameResult) (now : PyDateTime) (p p' : Pick)
    (hpend : p.status = "pending")
    (h : processPick f g now p = .ok p') :
    (p'.status = "win" →
      (∀ o, p.odds = some o → o ≠ 0 → p'.profit_loss = some (p.stake * (o - 1))) ∧
      (p.odds = none → p'.profit_loss = some p.stake)) ∧
    (p'.status = "loss" → p'.profit_loss = some (-p.stake)) := by
  rcases processPick_graded f g now p p' hpend h with rfl | rfl | rfl
  · refine ⟨fun hw => absurd (hpend.symm.trans hw) (by decide), ?_⟩
    exact fun hl => absurd (hpend.symm.trans hl) (by decide)
  · refine ⟨fun _ => ⟨fun o ho h0 => ?_, fun hn => ?_⟩,
      fun hl => absurd (show ("win" : String) = "loss" from hl) (by decide)⟩
    · show some (winPayout p) = _
      simp only [winPayout, ho]
      rw [if_pos h0]
    · show some (winPayout p) = _
      simp only [winPayout, hn]
  · exact ⟨fun hw => absurd (show ("loss" : String) = "win" from hw) (by decide), fun _ => rfl⟩

/-- Witness for C4 at the MLB spread win scenario of the specification:
`stake = 10`, `odds = 1.9`, so the graded profit is `10 * (1.9 - 1)`. -/
theorem c4_witness :
    ({ pickYankees with status := "win", profit_loss := some 9 } : Pick).profit_loss =
      some (pickYankees.stake * (⟨19, 10⟩ - 1)) :=
  ((c4_conservation cFindId cGetResult now0 pickYankees
      { pickYankees with status := "win", profit_loss := some 9 }
      rfl (by decide)).1 (by decide)).1 ⟨19, 10⟩ rfl (by decide)

/-- Claim C1 as amended: a pending pick whose (sport, bet type) combination
is not one of the three supported grading rules is not left pending when
its game resolves as finished — `did_pick_win` falls through to `False`
and the driver grades the pick as a loss with `profit_loss = -stake`. -/
theorem c1_unsupported_graded_loss (f : String → String → String → Option ℤ)
    (g : String → ℤ → Option GameResult) (now : PyDateTime) (p : Pick)
    (ds : String) (d : PyDateTime) (gid : ℤ) (gr : GameResult)
    (hpend : p.status = "pending")
    (hdate : p.event_details.date = some ds)
    (hparse : strptimeYMD ds = some d)
    (hfut : dateGtB d now = false)
    (hid : f p.sport (splitVsHead p.event_details.game) ds = some gid)
    (hgid : gid ≠ 0)
    (hres : g p.sport gid = some gr)
    (hfin : gr.statusLong = some "Finished")
    (h1 : ¬(p.sport = "MLB" ∧ p.bet_type = "Spread"))
    (h2 : ¬(p.sport = "Tennis" ∧ p.bet_type = "Moneyline"))
    (h3 : ¬(p.sport = "Tennis" ∧ p.bet_type = "Set Betting")) :
    processPick f g now p =
      .ok { p with status := "loss", profit_loss := some (-p.stake) } := by
  unfold processPick
  rw [if_pos hpend]
  simp only [hdate, hparse]
  simp only [hfut, Bool.false_eq_true, if_false]
  simp only [hid]
  rw [if_neg hgid]
  simp only [hres]
  rw [if_pos hfin]
  simp only [did_pick_win_unsupported p gr h1 h2 h3]

/-- Counterexample to Claim C1 as stated: an NBA moneyline pick (an
unsupported combination) whose game resolves as finished does not stay
pending with `profit_loss` unset — the settlement step grades it to a loss
and sets `profit_loss = -10`. -/
theorem c1_counterexample :
    processPick cFindId cGetResult now0 pickNBA ≠ Except.ok pickNBA ∧
    processPick cFindId cGetResult now0 pickNBA =
      Except.ok { pickNBA with status := "loss", profit_loss := some ⟨-10, 1⟩ } := by
  exact ⟨by decide, by decide⟩

/-- Witness for the amended C1 at the concrete NBA moneyline pick. -/
theorem c1_witness :
    processPick cFindId cGetResult now0 pickNBA =
      Except.ok { pickNBA with status := "loss", profit_loss := some (-pickNBA.stake) } :=
  c1_unsupported_graded_loss cFindId cGetResult now0 pickNBA
    "2025-07-07" ⟨2025, 7, 7, 0⟩ 1 grYankees
    rfl rfl (by decide) (by decide) rfl (by decide) rfl rfl
    (by decide) (by decide) (by decide)

/-- Claim C2 is violated by the code: an MLB spread pick whose prediction
ends in an unparseable token raises `ValueError` inside `did_pick_win`
once its game resolves as finished, and the exception terminates the whole
batch — the following pick is never processed and `save_picks` never runs
(the run ends in an error, not in a save). -/
theorem c2_malformed_prediction_kills_batch :
    did_pick_win pickMalformed (some grYankees) = Except.error PyError.valueError ∧
    update_results cFindId cGetResult now0 (LoadOutcome.parsed [pickMalformed, pickNBA]) =
      Except.error PyError.valueError := by
  exact ⟨by decide, by decide⟩

/-- Claim C3 is violated by the code: `start_of_period` for the weekly
report is `datetime.now()` minus whole days, so it keeps the current time
of day, while a pick dated on Monday parses to midnight.  Generating the
report on Tuesday 2025-07-08 at 12:00 therefore excludes a graded pick
dated 2025-07-07 (the Monday of that week) from every weekly count, even
though an unbounded report counts it. -/
theorem c3_monday_pick_excluded :
    weekday nowTue = 1 ∧
    generate_report "weekly" nowTue (LoadOutcome.parsed [pickDone]) =
      Except.ok (some ⟨⟨0, 0, 0, 0, 0⟩, 0⟩) ∧
    generate_report "all" nowTue (LoadOutcome.parsed [pickDone]) =
      Except.ok (some ⟨⟨10, 9, 1, 0, 0⟩, 90⟩) := by
  exact ⟨by decide, by decide, by decide⟩

/-- Claim C5: for every MLB spread pick whose prediction parses as a team
name and a signed spread, and every game result in which the team name is
a substring of exactly one side, the grading decision is a win iff the
matched side total plus the spread strictly exceeds the other side total
(so a spread-adjusted tie decides `false` and is graded a loss). -/
theorem c5_mlb_spread_rule (p : Pick) (gr : GameResult) (tn ss : String) (sp : PyNum)
    (hs : p.sport = "MLB") (hb : p.bet_type = "Spread")
    (hp : rsplitOnce p.prediction = some (tn, ss))
    (hf : pyFloat ss = some sp)
    (hm : (strIn tn gr.homeName = true ∧ strIn tn gr.awayName = false) ∨
          (strIn tn gr.homeName = false ∧ strIn tn gr.awayName = true)) :
    did_pick_win p (some gr) =
      Except.ok (decide ((if strIn tn gr.homeName then gr.awayTotal else gr.homeTotal) <
        (if strIn tn gr.homeName then gr.homeTotal else gr.awayTotal) + sp)) := by
  simp only [did_pick_win]
  rw [if_pos ⟨hs, hb⟩]
  simp only [hp, hf]
  rcases hm with ⟨hh, h2⟩ | ⟨hh, h2⟩ <;> simp [hh]

/-- Witness for C5 on the MLB spread scenario: prediction `"Yankees -1.5"`
against a finished 6–4 home win of the Yankees decides a win. -/
theorem c5_witness : did_pick_win pickYankees (some grYankees) = Except.ok true :=
  (c5_mlb_spread_rule pickYankees grYankees "Yankees" "-1.5" ⟨-3, 2⟩
    rfl rfl (by decide) (by decide) (Or.inl ⟨by decide, by decide⟩)).trans (by decide)

/-- Claim C10: an MLB spread pick whose parsed team name is a substring of
neither side name is still decided — the code falls into the `else` branch
and treats the predicted team as the away side, deciding a win iff
`away_score + spread > home_score`. -/
theorem c10_no_match_treated_as_away (p : Pick) (gr : GameResult)
    (tn ss : String) (sp : PyNum)
    (hs : p.sport = "MLB") (hb : p.bet_type = "Spread")
    (hp : rsplitOnce p.prediction = some (tn, ss))
    (hf : pyFloat ss = some sp)
    (hh : strIn tn gr.homeName = false)
    (_haw : strIn tn gr.awayName = false) :
    did_pick_win p (some gr) =
      Except.ok (decide (gr.homeTotal < gr.awayTotal + sp)) := by
  simp only [did_pick_win]
  rw [if_pos ⟨hs, hb⟩]
  simp only [hp, hf]
  rw [hh]
  simp

/-- Witness for C10: prediction `"Dodgers -1.5"` against the Yankees game
(neither side contains `"Dodgers"`) is decided as the away side:
`4 - 1.5 > 6` is false. -/
theorem c10_witness : did_pick_win pickDodgers (some grYankees) = Except.ok false :=
  (c10_no_match_treated_as_away pickDodgers grYankees "Dodgers" "-1.5" ⟨-3, 2⟩
    rfl rfl (by decide) (by decide) (by decide) (by decide)).trans (by decide)

/-- Claim C6: every produced report satisfies the ROI boundary: a zero
total stake yields an ROI of exactly `0` through the guard (no division is
reached), and a positive total stake yields
`total_profit_loss / total_staked * 100`. -/
theorem c6_roi_guard (period : String) (now : PyDateTime) (st : LoadOutcome) (r : Report)
    (h : generate_report period now st = .ok (some r)) :
    (r.totals.total_staked = 0 → r.roi = 0) ∧
    (0 < r.totals.total_staked →
      r.roi = r.totals.total_profit_loss / r.totals.total_staked * 100) := by
  unfold generate_report at h
  split at h
  · cases h
  · cases hw : reportWindow period now with
    | none => simp only [hw] at h; cases h
    | some se =>
      obtain ⟨s, e⟩ := se
      simp only [hw] at h
      cases ha : aggPicks s e ⟨0, 0, 0, 0, 0⟩ (get_picks st) with
      | error er => simp only [ha] at h; cases h
      | ok t =>
        simp only [ha] at h
        cases h
        simp only [mkReport]
        refine ⟨fun h0 => ?_, fun hpos => ?_⟩
        · have h0t : t.total_staked = 0 := h0
          show (if 0 < t.total_staked then
              t.total_profit_loss / t.total_staked * 100 else (0 : PyNum)) = 0
          rw [h0t]
          rw [if_neg (show ¬(0 : PyNum) < 0 by decide)]
        · show (if 0 < t.total_staked then
              t.total_profit_loss / t.total_staked * 100 else (0 : PyNum)) =
            t.total_profit_loss / t.total_staked * 100
          rw [if_pos hpos]

/-- Witness for C6: a report over a single pending pick has zero stake and
an ROI of exactly zero. -/
theorem c6_witness : ((⟨⟨0, 0, 0, 0, 1⟩, 0⟩ : Report)).roi = 0 :=
  (c6_roi_guard "all" nowTue (LoadOutcome.parsed [pickYankees])
    ⟨⟨0, 0, 0, 0, 1⟩, 0⟩ (by decide)).1 rfl

/-- Claim C7: settlement is idempotent.  If a run over some store saves the
collection `ps`, then a second run over the saved store (with the same
deterministic resolver, which in particular reports no newly finished
games) saves exactly `ps` again: terminal picks pass through unchanged and
no `profit_loss` is overwritten. -/
theorem c7_settlement_idempotent (f : String → String → String → Option ℤ)
    (g : String → ℤ → Option GameResult) (now : PyDateTime)
    (st : LoadOutcome) (ps : List Pick)
    (h : update_results f g now st = .ok (some ps)) :
    update_results f g now (LoadOutcome.parsed ps) = .ok (some ps) := by
  unfold update_results at h ⊢
  split at h
  · cases h
  · rename_i hne
    cases hr : runPicks f g now (get_picks st) with
    | error e => simp only [hr] at h; cases h
    | ok res =>
      simp only [hr] at h
      cases h
      have hlen := runPicks_length f g now (get_picks st) ps hr
      rw [if_neg]
      · simp only [show get_picks (LoadOutcome.parsed ps) = ps from rfl,
          runPicks_idem f g now (get_picks st) ps hr]
      · show ¬((get_picks (LoadOutcome.parsed ps)).isEmpty = true)
        intro hE
        apply hne
        have hnil : ps = [] := by
          have hres : (get_picks (LoadOutcome.parsed ps)) = [] := by
            rwa [List.isEmpty_iff] at hE
          exact hres
        rw [hnil] at hlen
        have hst : get_picks st = [] := by
          cases hgp : get_picks st with
          | nil => rfl
          | cons a l => rw [hgp] at hlen; simp at hlen
        rw [hst]
        rfl

/-- Witness for C7: a store holding one already graded pick is saved
unchanged, and running settlement on the saved store saves it unchanged
again. -/
theorem c7_witness :
    update_results cFindId cGetResult now0 (LoadOutcome.parsed [pickDone]) =
      Except.ok (some [pickDone]) :=
  c7_settlement_idempotent cFindId cGetResult now0
    (LoadOutcome.parsed [pickDone]) [pickDone] (by decide)

/-- Claim C8 as amended: the report loop includes a pick iff its parseable
date lies in the inclusive window `[start, end]`; a missing or empty date
string skips the pick without raising; but a date string that is present,
nonempty and not in `%Y-%m-%d` format raises `ValueError` (it is not
silently excluded). -/
theorem c8_window_filter (start endp : PyDateTime) (acc : Totals) (p : Pick) :
    (p.event_details.date = none ∨ p.event_details.date = some "" →
      aggStep start endp acc p = .ok acc) ∧
    (∀ s d, p.event_details.date = some s → s ≠ "" → strptimeYMD s = some d →
      aggStep start endp acc p =
        .ok (if dtLe start d && dtLe d endp then tally acc p else acc)) ∧
    (∀ s, p.event_details.date = some s → s ≠ "" → strptimeYMD s = none →
      aggStep start endp acc p = .error PyError.valueError) := by
  refine ⟨?_, ?_, ?_⟩
  · rintro (hd | hd) <;> simp [aggStep, hd]
  · intro s d hd hne hp
    simp only [aggStep, hd]
    rw [if_neg hne]
    simp only [hp]
    cases hw : (dtLe start d && dtLe d endp) <;> simp [hw]
  · intro s hd hne hp
    simp only [aggStep, hd]
    rw [if_neg hne]
    simp only [hp]

/-- Counterexample to Claim C8 as stated: a pick whose date string is
present but not in the expected format is not excluded without raising —
the whole report run raises `ValueError`. -/
theorem c8_counterexample :
    generate_report "all" nowTue (LoadOutcome.parsed [pickBadDate]) =
      Except.error PyError.valueError := by decide

/-- Witness for the amended C8: a dated graded pick inside the unbounded
window is tallied, and the same pick with a missing date is skipped. -/
theorem c8_witness :
    aggStep dtMin dtMax ⟨0, 0, 0, 0, 0⟩ pickDone =
      .ok (tally ⟨0, 0, 0, 0, 0⟩ pickDone) ∧
    aggStep dtMin dtMax ⟨0, 0, 0, 0, 0⟩
      { pickDone with event_details := ⟨"Yankees vs Red Sox", none⟩ } =
      .ok ⟨0, 0, 0, 0, 0⟩ := by
  constructor
  · exact ((c8_window_filter dtMin dtMax ⟨0, 0, 0, 0, 0⟩ pickDone).2.1
      "2025-07-07" ⟨2025, 7, 7, 0⟩ rfl (by decide) (by decide)).trans (by decide)
  · exact (c8_window_filter dtMin dtMax ⟨0, 0, 0, 0, 0⟩ _).1 (Or.inl rfl)
